import Mathlib

/-!
Shallow embedding of `src/deployment_agent.py` (repository
therealakhil1/devops-agent) and proofs about its deployment lifecycle
tools: cloning, branch checkout, manifest file creation, cluster
apply/rollback, and deployment monitoring.

Filesystem paths are modelled as lists of path components
(`os.path.join a b` becomes `a ++ [b]`).  External effects (subprocess
exit codes, the Kubernetes client, the clock) are supplied as explicit
oracle parameters, and each embedded function returns both its Python
return value / raised exception and the trace of effects it performed,
so that properties about "what was executed" are statable.
-/

namespace DevopsAgent

/-- A filesystem path, as its list of components. -/
abbrev Path := List String

/-- The exception classes declared at the top of `deployment_agent.py`
(lines 11-24), plus the bare `Exception` raised in `rollback_branch`
line 110. Each carries its message string. -/
inductive AgentError where
  | checkoutException (msg : String)
  | deploymentException (msg : String)
  | buildException (msg : String)
  | rollbackException (msg : String)
  | monitorException (msg : String)
  | genericException (msg : String)
  deriving Repr, DecidableEq

/-- An exception arising inside a Python block before the agent wraps
it: either a Kubernetes `client.exceptions.ApiException` carrying an
HTTP status, or any other exception, reduced to its message. -/
inductive PyErr where
  | apiException (status : Nat) (reason : String)
  | exc (msg : String)
  deriving Repr, DecidableEq

/-- The string Python's `str(e)` interpolates into the f-string wrappers. -/
def PyErr.text : PyErr → String
  | .apiException s r => "(" ++ toString s ++ ") " ++ r
  | .exc m => m

/-! ## `clone_repository_to_temp_dir` (lines 26-39)

```python
temp_dir = tempfile.mkdtemp()
try:
    subprocess.run(["git", "clone", repository_url], cwd=temp_dir, check=True)
except Exception as e:
    shutil.rmtree(temp_dir)
return os.path.join(temp_dir, "agenticaitraining")
```

The oracle supplies the fresh directory `tempfile.mkdtemp()` produced,
whether `git clone` exited zero, and the directory name git derives
from the URL (the directory the clone creates under `cwd=temp_dir`). -/

structure CloneEnv where
  /-- the fresh directory returned by `tempfile.mkdtemp()` -/
  tempDir : Path
  /-- whether the `git clone` subprocess exits zero for this URL -/
  cloneExitZero : Bool
  /-- the directory name git derives from a repository URL -/
  gitDirName : String → String

structure CloneResult where
  /-- the Python return value of the call (it always returns a path) -/
  returnedPath : Path
  /-- the exception propagated to the caller, if any -/
  raised : Option AgentError
  /-- directories this call leaves on disk afterwards -/
  dirsOnDisk : List Path
  deriving Repr

def clone_repository_to_temp_dir (repository_url : String) (env : CloneEnv) :
    CloneResult :=
  let temp_dir := env.tempDir
  if env.cloneExitZero then
    -- clone succeeded: temp_dir and the cloned working tree remain
    { returnedPath := temp_dir ++ ["agenticaitraining"]
      raised := none
      dirsOnDisk := [temp_dir, temp_dir ++ [env.gitDirName repository_url]] }
  else
    -- `except Exception: shutil.rmtree(temp_dir)` — the exception is
    -- swallowed and control falls through to the same return statement
    { returnedPath := temp_dir ++ ["agenticaitraining"]
      raised := none
      dirsOnDisk := [] }

/-! ## `create_deployment_file` (lines 149-164)

```python
PROJECT_ROOT = os.path.dirname(os.path.abspath(__file__))
deployment_file = os.path.join(PROJECT_ROOT, f"deployments-{branch_name}-{environment}.yaml")
with open(deployment_file, "w") as f:
    f.write(deployment_content)
return str(deployment_file), deployment_name
```

The function performs no parsing or validation of
`deployment_content`; it writes the text verbatim and always returns.
Files on disk are modelled as a map from paths to contents. -/

/-- File contents on disk, by path. -/
abbrev FileSys := Path → Option String

/-- Writing a file: `open(path, "w")` followed by `f.write(content)`. -/
def FileSys.write (fs : FileSys) (p : Path) (content : String) : FileSys :=
  fun q => if q = p then some content else fs q

/-- The directory of `deployment_agent.py`
(`os.path.dirname(os.path.abspath(__file__))`), fixed for a given
installation of the module. -/
def PROJECT_ROOT : Path := ["PROJECT_ROOT"]

def create_deployment_file (deployment_content branch_name environment
    deployment_name : String) (fs : FileSys) :
    (Path × String) × FileSys :=
  let deployment_file :=
    PROJECT_ROOT ++ ["deployments-" ++ branch_name ++ "-" ++ environment
                      ++ ".yaml"]
  ((deployment_file, deployment_name),
    fs.write deployment_file deployment_content)

/-- Whether the first list of characters occurs at the head of the second. -/
def hasPrefixChars : List Char → List Char → Bool
  | [], _ => true
  | _ :: _, [] => false
  | c :: cs, d :: ds => c == d && hasPrefixChars cs ds

/-- Whether the first list of characters occurs anywhere in the second. -/
def hasSubstrChars (needle : List Char) : List Char → Bool
  | [] => hasPrefixChars needle []
  | d :: rest => hasPrefixChars needle (d :: rest) || hasSubstrChars needle rest

/-- Modelled from the spec: the source's `create_deployment_file` has
no notion of a valid deployment spec (it never parses its input), so
the spec's "parses as a valid spec ... (apiVersion/kind/metadata/spec
equivalent)" is approximated by a necessary condition in its words:
the text must mention each of the four required top-level keys. -/
def parsesAsValidSpec (text : String) : Bool :=
  ["apiVersion", "kind", "metadata", "spec"].all
    (fun k => hasSubstrChars k.data text.data)

/-! ## `deploy_branch` (lines 61-89)

```python
try:
    config.load_kube_config()
    with open(deployment_file) as f:
        dep = yaml.safe_load(f)
    k8s_apps_v1 = client.AppsV1Api()
    namespace = environment
    try:
        k8s_apps_v1.create_namespaced_deployment(body=dep, namespace=namespace)
    except client.exceptions.ApiException as e:
        if e.status == 409:  # Already exists, replace
            k8s_apps_v1.replace_namespaced_deployment(
                name=dep['metadata']['name'], namespace=namespace, body=dep)
        else:
            raise
except Exception as e:
    raise DeploymentException(f'Failed to deploy the branch {branch_name}: {e}')
```

`config.load_kube_config()` and the file-open-plus-`yaml.safe_load`
step are oracles (`loadKube`, `parsed`); the Kubernetes client is an
oracle giving each call's outcome, and the embedding also returns the
list of API calls issued, in order. -/

/-- A parsed deployment document: `dep` in the source.  `name` is what
`dep['metadata']['name']` looks up; `doc` stands for the rest of the
document. -/
structure Manifest where
  name : String
  doc : String
  deriving Repr, DecidableEq

/-- A call issued to the Kubernetes AppsV1 API. -/
inductive ApiCall where
  | create (body : Manifest) (ns : String)
  | replace (name : String) (ns : String) (body : Manifest)
  | delete (name : String) (ns : String)
  deriving Repr, DecidableEq

/-- Outcomes of the cluster API, per call: `none` is success. -/
structure K8sApi where
  createOutcome : Manifest → String → Option PyErr
  replaceOutcome : String → String → Manifest → Option PyErr
  deleteOutcome : String → String → Option PyErr

def deploy_branch (deployment_file : Path) (environment branch_name : String)
    (loadKube : Option PyErr) (parsed : Except PyErr Manifest)
    (api : K8sApi) : Except AgentError Unit × List ApiCall :=
  let fail : PyErr → Except AgentError Unit := fun e =>
    Except.error (.deploymentException
      ("Failed to deploy the branch " ++ branch_name ++ ": " ++ e.text))
  match loadKube with
  | some e => (fail e, [])
  | none =>
    match parsed with
    | .error e => (fail e, [])
    | .ok dep =>
      match api.createOutcome dep environment with
      | none => (Except.ok (), [.create dep environment])
      | some (.apiException s r) =>
        -- `except client.exceptions.ApiException as e: if e.status == 409:`
        if s = 409 then
          match api.replaceOutcome dep.name environment dep with
          | none => (Except.ok (),
              [.create dep environment, .replace dep.name environment dep])
          | some e2 => (fail e2,
              [.create dep environment, .replace dep.name environment dep])
        else (fail (.apiException s r), [.create dep environment])
      | some (.exc m) => (fail (.exc m), [.create dep environment])

/-! ## `monitor_deployment` (lines 112-134)

```python
try:
    config.load_kube_config()
    k8s_apps_v1 = client.AppsV1Api()
    namespace = environment
    start = time.time()
    while time.time() - start < timeout:
        resp = k8s_apps_v1.read_namespaced_deployment(name=deployment_name, namespace=namespace)
        status = resp.status
        if status.conditions:
            for cond in status.conditions:
                if cond.type == "Available" and cond.status == "True":
                    return True
        time.sleep(interval)
    return False
except Exception as e:
    raise MonitorException(f'Failed to monitor the deployment of the branch {branch_name}: {e}')
```

Time is modelled discretely: each `time.sleep(interval)` advances the
clock by `interval` and reads take no time, so the k-th status read
happens at elapsed time `k * interval` and is executed exactly when
`k * interval < timeout`.  With a positive interval the loop guard
therefore admits `ceil(timeout / interval)` reads before the timeout
elapses; the loop is written by recursion on that count.  The k-th
read's outcome is the oracle `reads k` (a raised exception or the
status's condition list; a `None` condition list behaves as the empty
list, both being falsy and yielding no Available condition). -/

/-- One entry of `status.conditions`: its `type` and `status` strings. -/
structure DepCond where
  type : String
  state : String
  deriving Repr, DecidableEq

/-- The `for cond in status.conditions` scan:
`cond.type == "Available" and cond.status == "True"` for some entry. -/
def hasAvailableTrue (conds : List DepCond) : Bool :=
  conds.any (fun cond => cond.type == "Available" && cond.state == "True")

/-- How many reads the while-guard admits: the number of k ≥ 0 with
`k * interval < timeout`, i.e. `ceil(timeout / interval)` for a
positive interval. -/
def numPolls (timeout interval : Nat) : Nat :=
  (timeout + interval - 1) / interval

/-- What one run of `monitor_deployment` did. -/
structure MonitorRun where
  /-- the Python return value, or the exception raised -/
  result : Except AgentError Bool
  /-- how many status reads were executed -/
  readsDone : Nat
  /-- how many `time.sleep(interval)` calls were executed -/
  sleeps : Nat
  deriving Repr

/-- The while-loop, by recursion on the number of reads the guard
still admits; `k` is the index of the next read. -/
def monitorLoop (reads : Nat → Except String (List DepCond))
    (branch_name : String) (k : Nat) : Nat → MonitorRun
  | 0 => { result := Except.ok false, readsDone := 0, sleeps := 0 }
  | fuel + 1 =>
    match reads k with
    | .error e =>
      { result := Except.error (.monitorException
          ("Failed to monitor the deployment of the branch " ++ branch_name
            ++ ": " ++ e)),
        readsDone := 1, sleeps := 0 }
    | .ok conds =>
      if hasAvailableTrue conds then
        { result := Except.ok true, readsDone := 1, sleeps := 0 }
      else
        let rest := monitorLoop reads branch_name (k + 1) fuel
        { result := rest.result, readsDone := rest.readsDone + 1,
          sleeps := rest.sleeps + 1 }

def monitor_deployment (branch_name environment deployment_name : String)
    (timeout interval : Nat) (loadKube : Option String)
    (reads : Nat → Except String (List DepCond)) : MonitorRun :=
  match loadKube with
  | some e =>
    { result := Except.error (.monitorException
        ("Failed to monitor the deployment of the branch " ++ branch_name
          ++ ": " ++ e)),
      readsDone := 0, sleeps := 0 }
  | none => monitorLoop reads branch_name 0 (numPolls timeout interval)

/-- `reads k` returned a condition list with no Available=true entry. -/
def okNotAvail (r : Except String (List DepCond)) : Bool :=
  match r with
  | .ok conds => !hasAvailableTrue conds
  | .error _ => false

/-! ## `rollback_branch` (lines 91-110)

```python
try:
    config.load_kube_config()
    k8s_apps_v1 = client.AppsV1Api()
    namespace = environment
    # Here, we simply delete the deployment as a placeholder
    k8s_apps_v1.delete_namespaced_deployment(name=deployment_name, namespace=namespace)
except Exception as e:
    raise RollbackException(f'Failed to rollback the branch {branch_name}: {e}')
try:
    os.remove(deployment_file)
except Exception as e:
    raise Exception(f'Failed to delete the deployment file for the branch {branch_name}.')
```

`os.remove` raises when the file is absent; its success removes the
entry from the filesystem map. -/

def rollback_branch (deployment_file : Path)
    (branch_name environment deployment_name : String)
    (loadKube : Option String) (api : K8sApi) (fs : FileSys) :
    Except AgentError Unit × FileSys :=
  match loadKube with
  | some e =>
    (Except.error (.rollbackException
      ("Failed to rollback the branch " ++ branch_name ++ ": " ++ e)), fs)
  | none =>
    match api.deleteOutcome deployment_name environment with
    | some e =>
      (Except.error (.rollbackException
        ("Failed to rollback the branch " ++ branch_name ++ ": "
          ++ e.text)), fs)
    | none =>
      match fs deployment_file with
      | none =>
        (Except.error (.genericException
          ("Failed to delete the deployment file for the branch "
            ++ branch_name ++ ".")), fs)
      | some _ =>
        (Except.ok (),
          fun q => if q = deployment_file then none else fs q)

/-! ## RemediationEngine (spec §4.6) -/

/-- The outcome of one remediation attempt (spec §4.6). -/
inductive RemediationOutcome where
  | Fixed
  | StillFailing
  | Exhausted (summary : String)
  deriving Repr, DecidableEq

/-- Per-deployment-identity attempt counters (spec §3,
RemediationAttempt: attempt count with cap 3). -/
structure RemediationState where
  attemptsOf : String → Nat

/-- What one call to `attempt` produced: its outcome, the updated
counters, and how many procedure steps it executed. -/
structure AttemptResult where
  outcome : RemediationOutcome
  state : RemediationState
  stepsExecuted : Nat

/-- Modelled from the spec: no RemediationEngine exists in the source —
the 3-attempt cap appears only as natural-language instruction to the
language model in `deployment_agent.py` ("If the deployment has failed
3 times already, tell the user that the deployment cannot be fixed and
give them the summary of the failure").  Following §4.6 of the spec:
`attempt` increments the attempt counter for this identity; if the
counter exceeds 3, it returns an `Exhausted` outcome carrying a
failure summary and performs no further action; otherwise it executes
the procedure's steps and returns `Fixed` or `StillFailing` according
to whether the run fixed the deployment. -/
def RemediationEngine.attempt (identity : String)
    (procedure : List String) (failureSummary : String)
    (runFixes : Bool) (st : RemediationState) : AttemptResult :=
  let c := st.attemptsOf identity + 1
  let st' : RemediationState :=
    { attemptsOf := fun i => if i = identity then c else st.attemptsOf i }
  if c > 3 then
    { outcome := .Exhausted failureSummary, state := st', stepsExecuted := 0 }
  else
    { outcome := if runFixes then .Fixed else .StillFailing, state := st',
      stepsExecuted := procedure.length }

end DevopsAgent

namespace DevopsAgent

/-- C1, behaviour at a concrete failing input: clone of any URL whose
subprocess exits non-zero.  The directory is removed, but no
`CheckoutException` propagates (`raised = none`) and a workspace path
is still returned to the caller — contradicting the claim that the
failure propagates and no path is returned. -/
theorem clone_failure_swallows_error_and_returns_path :
    clone_repository_to_temp_dir "https://example.invalid/repo.git"
        { tempDir := ["tmp", "tmpabc123"], cloneExitZero := false,
          gitDirName := fun _ => "repo" } =
      { returnedPath := ["tmp", "tmpabc123", "agenticaitraining"],
        raised := none,
        dirsOnDisk := [] } := by
  rfl

/-- C10: for every repository URL and environment, the call returns the
fixed component "agenticaitraining" joined to the fresh temporary
directory — the same path for any two URLs — and when the clone
succeeds, the returned path is a directory that actually exists on
disk if and only if git named the cloned directory exactly
"agenticaitraining". -/
theorem clone_returns_fixed_subdir (url url' : String) (env : CloneEnv) :
    (clone_repository_to_temp_dir url env).returnedPath
        = env.tempDir ++ ["agenticaitraining"]
    ∧ (clone_repository_to_temp_dir url env).returnedPath
        = (clone_repository_to_temp_dir url' env).returnedPath
    ∧ (env.cloneExitZero = true →
        ((clone_repository_to_temp_dir url env).returnedPath
            ∈ (clone_repository_to_temp_dir url env).dirsOnDisk
          ↔ env.gitDirName url = "agenticaitraining")) := by
  refine ⟨?_, ?_, ?_⟩
  · unfold clone_repository_to_temp_dir
    cases h : env.cloneExitZero <;> simp
  · unfold clone_repository_to_temp_dir
    cases h : env.cloneExitZero <;> simp
  · intro hc
    unfold clone_repository_to_temp_dir
    simp only [hc, if_pos]
    constructor
    · intro hmem
      rcases List.mem_pair.mp hmem with h | h
      · exact absurd (congrArg List.length h) (by simp)
      · have := List.append_cancel_left h
        simpa using this.symm
    · intro hname
      simp [hname]

/-! ## `checkout_branch` (lines 49-58)

```python
try:
    subprocess.run(["git", "checkout", branch_name], check=True)
except Exception as e:
    raise CheckoutException(f'Failed to checkout to the branch {branch_name}.')
```

Note the `subprocess.run` call passes no `cwd=` (unlike
`clone_repository_to_temp_dir` and `build_docker_image`, which pass
`cwd=temp_dir`): git runs in the agent process's current working
directory.  The git world is modelled as the current directory, the
set of directories on disk, the ref checked out (HEAD) in each
directory, and which refs resolve in which directory. -/

structure GitState where
  /-- the agent process's current working directory -/
  cwd : Path
  /-- the directories that exist on disk -/
  dirsOnDisk : List Path
  /-- the ref currently checked out in each repository directory -/
  headOf : Path → String
  /-- whether a ref name resolves inside a given directory -/
  refResolves : Path → String → Bool

def checkout_branch (branch_name : String) (st : GitState) :
    Except AgentError GitState :=
  if st.refResolves st.cwd branch_name then
    Except.ok { st with
      headOf := fun d => if d = st.cwd then branch_name else st.headOf d }
  else
    Except.error (.checkoutException
      ("Failed to checkout to the branch " ++ branch_name ++ "."))

/-- C8, behaviour at a concrete input: the workspace produced by fetch
is `tmp/t1/agenticaitraining` (HEAD at "main") but the process's
current directory is `home/op` — `checkout_branch` takes no workspace
argument and runs `git checkout` in the current directory, so the
checkout succeeds yet the workspace's working tree is untouched (still
"main") while `home/op` is switched instead.  The error and
preservation parts of the claim do hold: an unresolvable ref raises
`CheckoutException`, and no directory is ever removed. -/
theorem checkout_ignores_workspace :
    (checkout_branch "feature-x"
        { cwd := ["home", "op"],
          dirsOnDisk := [["home", "op"], ["tmp", "t1", "agenticaitraining"]],
          headOf := fun _ => "main",
          refResolves := fun _ _ => true }).map
        (fun s => (s.headOf ["tmp", "t1", "agenticaitraining"],
                   s.headOf ["home", "op"], s.dirsOnDisk)) =
      Except.ok ("main", "feature-x",
        [["home", "op"], ["tmp", "t1", "agenticaitraining"]])
    ∧ checkout_branch "no-such-ref"
        { cwd := ["home", "op"],
          dirsOnDisk := [["home", "op"], ["tmp", "t1", "agenticaitraining"]],
          headOf := fun _ => "main",
          refResolves := fun _ _ => false } =
      Except.error (AgentError.checkoutException
        "Failed to checkout to the branch no-such-ref.") := by
  constructor
  · simp [checkout_branch, Except.map]
  · rfl

/-- C6, counterexample: the empty text does not parse as a valid
deployment spec, yet `create_deployment_file` does not fail — it
writes the (invalid) artifact to disk and returns the handle. -/
theorem render_accepts_invalid_spec :
    parsesAsValidSpec "" = false
    ∧ (create_deployment_file "" "b1" "staging" "app"
          (fun _ => none)).2
        (create_deployment_file "" "b1" "staging" "app"
          (fun _ => none)).1.1 = some "" := by
  constructor
  · rfl
  · rfl

/-- C6 as amended: `create_deployment_file` performs no parsing or
validation at all — for every input text (valid spec or not) it writes
the text verbatim to the derived path and returns the handle; no
failure path exists. -/
theorem render_never_validates (deployment_content branch_name environment
    deployment_name : String) (fs : FileSys) :
    (create_deployment_file deployment_content branch_name environment
        deployment_name fs).1
      = (PROJECT_ROOT ++ ["deployments-" ++ branch_name ++ "-"
          ++ environment ++ ".yaml"], deployment_name)
    ∧ (create_deployment_file deployment_content branch_name environment
        deployment_name fs).2
        (PROJECT_ROOT ++ ["deployments-" ++ branch_name ++ "-"
          ++ environment ++ ".yaml"])
      = some deployment_content := by
  constructor
  · rfl
  · simp [create_deployment_file, FileSys.write]

/-- C7: rendering a manifest and reading back the file at the returned
path yields exactly the input text, and the path is derived from
(branch, environment) alone — two renders with equal branch and
environment target the same path whatever their content, name, or
starting filesystem. -/
theorem render_roundtrip_and_deterministic_path
    (content content' branch environment name name' : String)
    (fs fs' : FileSys) :
    (create_deployment_file content branch environment name fs).2
        (create_deployment_file content branch environment name fs).1.1
      = some content
    ∧ (create_deployment_file content branch environment name fs).1.1
      = (create_deployment_file content' branch environment name' fs').1.1 := by
  constructor
  · simp [create_deployment_file, FileSys.write]
  · rfl

/-- C3: with the client configured and the manifest parsed,
`deploy_branch` first issues a create; a replace — addressed to the
same name `dep.name`, in place — is issued if and only if the create
failed with an already-exists conflict (ApiException status 409); on
the conflict path with a succeeding replace no error is raised; and
for any other failure of the create, it raises `DeploymentException`
wrapping the underlying cause's text. -/
theorem apply_create_then_replace_on_conflict
    (deployment_file : Path) (environment branch_name : String)
    (dep : Manifest) (api : K8sApi) :
    ((deploy_branch deployment_file environment branch_name none
        (Except.ok dep) api).2.head? = some (ApiCall.create dep environment))
    ∧ ((∃ r, api.createOutcome dep environment
          = some (PyErr.apiException 409 r)) ↔
        ApiCall.replace dep.name environment dep
          ∈ (deploy_branch deployment_file environment branch_name none
              (Except.ok dep) api).2)
    ∧ (∀ r, api.createOutcome dep environment
          = some (PyErr.apiException 409 r) →
        api.replaceOutcome dep.name environment dep = none →
        (deploy_branch deployment_file environment branch_name none
            (Except.ok dep) api).1 = Except.ok ())
    ∧ (∀ e, api.createOutcome dep environment = some e →
        (∀ r, e ≠ PyErr.apiException 409 r) →
        (deploy_branch deployment_file environment branch_name none
            (Except.ok dep) api).1
          = Except.error (AgentError.deploymentException
              ("Failed to deploy the branch " ++ branch_name ++ ": "
                ++ e.text))) := by
  refine ⟨?_, ⟨?_, ?_⟩, ?_, ?_⟩
  · cases h : api.createOutcome dep environment with
    | none => simp [deploy_branch, h]
    | some e =>
      cases e with
      | apiException s r =>
        by_cases hs : s = 409
        · subst hs
          cases h2 : api.replaceOutcome dep.name environment dep with
          | none => simp [deploy_branch, h, h2]
          | some e2 => simp [deploy_branch, h, h2]
        · simp [deploy_branch, h, hs]
      | exc m => simp [deploy_branch, h]
  · rintro ⟨r, hr⟩
    cases h2 : api.replaceOutcome dep.name environment dep with
    | none => simp [deploy_branch, hr, h2]
    | some e2 => simp [deploy_branch, hr, h2]
  · intro hmem
    cases h : api.createOutcome dep environment with
    | none => simp [deploy_branch, h] at hmem
    | some e =>
      cases e with
      | apiException s r =>
        by_cases hs : s = 409
        · subst hs
          exact ⟨r, rfl⟩
        · simp [deploy_branch, h, hs] at hmem
      | exc m => simp [deploy_branch, h] at hmem
  · intro r hr hrep
    simp [deploy_branch, hr, hrep]
  · intro e he hne
    cases e with
    | apiException s r =>
      by_cases hs : s = 409
      · exact absurd (by rw [hs]) (hne r)
      · simp [deploy_branch, he, hs]
    | exc m => simp [deploy_branch, he]

/-- Witness for C3 at concrete inputs: a create that hits a 409
conflict leads to a replace of the same name and an `ok` result. -/
theorem apply_create_then_replace_on_conflict_witness :
    (ApiCall.replace "app" "staging" ⟨"app", "doc"⟩
      ∈ (deploy_branch ["f"] "staging" "b1" none
          (Except.ok ⟨"app", "doc"⟩)
          { createOutcome := fun _ _ =>
              some (PyErr.apiException 409 "Conflict"),
            replaceOutcome := fun _ _ _ => none,
            deleteOutcome := fun _ _ => none }).2)
    ∧ (deploy_branch ["f"] "staging" "b1" none
        (Except.ok ⟨"app", "doc"⟩)
        { createOutcome := fun _ _ =>
            some (PyErr.apiException 409 "Conflict"),
          replaceOutcome := fun _ _ _ => none,
          deleteOutcome := fun _ _ => none }).1 = Except.ok () := by
  have h := apply_create_then_replace_on_conflict ["f"] "staging" "b1"
    ⟨"app", "doc"⟩
    { createOutcome := fun _ _ => some (PyErr.apiException 409 "Conflict"),
      replaceOutcome := fun _ _ _ => none,
      deleteOutcome := fun _ _ => none }
  exact ⟨h.2.1.mp ⟨"Conflict", rfl⟩, h.2.2.1 "Conflict" rfl rfl⟩

/-- Whether an `Except` value is in its error case. -/
def isErrorB {ε α : Type} : Except ε α → Bool
  | .error _ => true
  | .ok _ => false

theorem numPolls_zero_timeout (interval : Nat) : numPolls 0 interval = 0 := by
  unfold numPolls
  cases interval with
  | zero => rfl
  | succ i => exact Nat.div_eq_of_lt (by omega)

theorem numPolls_pos {timeout interval : Nat} (ht : 0 < timeout)
    (hi : 0 < interval) : 0 < numPolls timeout interval := by
  unfold numPolls
  exact (Nat.one_le_div_iff hi).mpr (by omega)

/-- If every read the guard admits is ok-but-not-available, the loop
runs to timeout: it returns `False`, having read and slept once per
admitted poll. -/
theorem monitorLoop_all_notAvail (reads : Nat → Except String (List DepCond))
    (branch_name : String) (fuel : Nat) :
    ∀ k, (∀ j, j < fuel → okNotAvail (reads (k + j)) = true) →
      monitorLoop reads branch_name k fuel
        = { result := Except.ok false, readsDone := fuel, sleeps := fuel } := by
  induction fuel with
  | zero => intro k _; rfl
  | succ m ih =>
    intro k h
    have h0 : okNotAvail (reads k) = true := by simpa using h 0 (by omega)
    cases hr : reads k with
    | error e => rw [hr] at h0; simp [okNotAvail] at h0
    | ok conds =>
      rw [hr] at h0
      have hav : hasAvailableTrue conds = false := by
        simpa [okNotAvail] using h0
      have ihk := ih (k + 1) (fun j hj => by
        have := h (j + 1) (by omega)
        simpa [Nat.add_assoc, Nat.add_comm, Nat.add_left_comm] using this)
      simp [monitorLoop, hr, hav, ihk]

/-- The loop ends in a raised exception exactly when some admitted
read errors after a prefix of ok-but-not-available reads. -/
theorem monitorLoop_error_iff (reads : Nat → Except String (List DepCond))
    (branch_name : String) (fuel : Nat) :
    ∀ k, (isErrorB (monitorLoop reads branch_name k fuel).result = true ↔
      ∃ j, j < fuel ∧ isErrorB (reads (k + j)) = true
        ∧ ∀ i, i < j → okNotAvail (reads (k + i)) = true) := by
  induction fuel with
  | zero =>
    intro k
    simp [monitorLoop, isErrorB]
  | succ m ih =>
    intro k
    cases hr : reads k with
    | error e =>
      simp only [monitorLoop, hr]
      constructor
      · intro _
        exact ⟨0, by omega, by simp [hr, isErrorB], fun i hi => by omega⟩
      · intro _; rfl
    | ok conds =>
      by_cases hav : hasAvailableTrue conds = true
      · simp only [monitorLoop, hr, hav, if_pos]
        constructor
        · intro hfalse; simp [isErrorB] at hfalse
        · rintro ⟨j, hj, herr, hpre⟩
          cases j with
          | zero => rw [Nat.add_zero, hr] at herr; simp [isErrorB] at herr
          | succ j' =>
            have := hpre 0 (by omega)
            rw [Nat.add_zero, hr] at this
            simp [okNotAvail, hav] at this
      · simp only [monitorLoop, hr, hav, if_neg, Bool.not_eq_true]
        rw [ih (k + 1)]
        constructor
        · rintro ⟨j, hj, herr, hpre⟩
          refine ⟨j + 1, by omega, by simpa [Nat.add_assoc, Nat.add_comm, Nat.add_left_comm] using herr, ?_⟩
          intro i hi
          cases i with
          | zero =>
            rw [Nat.add_zero, hr]
            simp [okNotAvail, hav]
          | succ i' =>
            have := hpre i' (by omega)
            simpa [Nat.add_assoc, Nat.add_comm, Nat.add_left_comm] using this
        · rintro ⟨j, hj, herr, hpre⟩
          cases j with
          | zero => rw [Nat.add_zero, hr] at herr; simp [isErrorB] at herr
          | succ j' =>
            refine ⟨j', by omega, by simpa [Nat.add_assoc, Nat.add_comm, Nat.add_left_comm] using herr, ?_⟩
            intro i hi
            have := hpre (i + 1) (by omega)
            simpa [Nat.add_assoc, Nat.add_comm, Nat.add_left_comm] using this

/-- The loop never raises anything but `MonitorException`. -/
theorem monitorLoop_error_kind (reads : Nat → Except String (List DepCond))
    (branch_name : String) (fuel : Nat) :
    ∀ k err, (monitorLoop reads branch_name k fuel).result
        = Except.error err → ∃ m, err = AgentError.monitorException m := by
  induction fuel with
  | zero => intro k err h; simp [monitorLoop] at h
  | succ m ih =>
    intro k err h
    cases hr : reads k with
    | error e =>
      simp only [monitorLoop, hr] at h
      exact ⟨_, (Except.error.inj h).symm⟩
    | ok conds =>
      by_cases hav : hasAvailableTrue conds = true
      · simp [monitorLoop, hr, hav] at h
      · simp only [monitorLoop, hr, hav, if_neg, Bool.not_eq_true] at h
        exact ih (k + 1) err h

/-- C4: `monitor_deployment` with timeout 0 returns `False` at once —
no status read, no sleep — whatever the interval and cluster
behaviour; and when the first poll's status already carries a
condition of type "Available" with state "True", it returns `True`
after that single read, without sleeping. -/
theorem monitor_zero_timeout_and_instant_available
    (branch_name environment deployment_name : String)
    (timeout interval : Nat) (reads : Nat → Except String (List DepCond))
    (conds : List DepCond) :
    (monitor_deployment branch_name environment deployment_name 0 interval
        none reads
      = { result := Except.ok false, readsDone := 0, sleeps := 0 })
    ∧ (0 < timeout → 0 < interval → reads 0 = Except.ok conds →
        hasAvailableTrue conds = true →
        monitor_deployment branch_name environment deployment_name timeout
            interval none reads
          = { result := Except.ok true, readsDone := 1, sleeps := 0 }) := by
  constructor
  · simp [monitor_deployment, numPolls_zero_timeout, monitorLoop]
  · intro ht hi hread hav
    obtain ⟨m, hm⟩ := Nat.exists_eq_succ_of_ne_zero
      (Nat.pos_iff_ne_zero.mp (numPolls_pos ht hi))
    simp [monitor_deployment, hm, monitorLoop, hread, hav]

/-- Witness for C4 at concrete inputs: timeout 0 yields `False` with
no reads and no sleeps, and a first poll already Available yields
`True` after one read with no sleeps. -/
theorem monitor_zero_timeout_and_instant_available_witness :
    (monitor_deployment "b1" "staging" "app" 0 5 none
        (fun _ => Except.ok [⟨"Available", "True"⟩])
      = { result := Except.ok false, readsDone := 0, sleeps := 0 })
    ∧ (monitor_deployment "b1" "staging" "app" 120 5 none
        (fun _ => Except.ok [⟨"Available", "True"⟩])
      = { result := Except.ok true, readsDone := 1, sleeps := 0 }) :=
  ⟨(monitor_zero_timeout_and_instant_available "b1" "staging" "app" 120 5
      (fun _ => Except.ok [⟨"Available", "True"⟩]) [⟨"Available", "True"⟩]).1,
    (monitor_zero_timeout_and_instant_available "b1" "staging" "app" 120 5
      (fun _ => Except.ok [⟨"Available", "True"⟩]) [⟨"Available", "True"⟩]).2
      (by decide) (by decide) rfl (by decide)⟩

/-- C5: with the client configured, `monitor_deployment` separates the
two negative outcomes — if every poll the timeout admits reads a
status with no Available=true condition and no read errors, it returns
`False` (readsDone and sleeps equal to the number of admitted polls)
and raises nothing; and it raises an error (always a
`MonitorException`) precisely when some admitted status read errors
after earlier polls that were ok but not available. -/
theorem monitor_timeout_not_error_and_error_iff
    (branch_name environment deployment_name : String)
    (timeout interval : Nat)
    (reads : Nat → Except String (List DepCond)) :
    ((∀ k, k < numPolls timeout interval → okNotAvail (reads k) = true) →
      monitor_deployment branch_name environment deployment_name timeout
          interval none reads
        = { result := Except.ok false,
            readsDone := numPolls timeout interval,
            sleeps := numPolls timeout interval })
    ∧ (isErrorB (monitor_deployment branch_name environment deployment_name
          timeout interval none reads).result = true ↔
        ∃ k, k < numPolls timeout interval ∧ isErrorB (reads k) = true
          ∧ ∀ j, j < k → okNotAvail (reads j) = true)
    ∧ (∀ err, (monitor_deployment branch_name environment deployment_name
          timeout interval none reads).result = Except.error err →
        ∃ m, err = AgentError.monitorException m)
    ∧ (∀ e, (monitor_deployment branch_name environment deployment_name
          timeout interval (some e) reads).result
        = Except.error (AgentError.monitorException
            ("Failed to monitor the deployment of the branch "
              ++ branch_name ++ ": " ++ e))) := by
  refine ⟨?_, ?_, ?_, fun e => rfl⟩
  · intro h
    simpa [monitor_deployment] using
      monitorLoop_all_notAvail reads branch_name
        (numPolls timeout interval) 0 (fun j hj => by simpa using h j hj)
  · simpa [monitor_deployment] using
      monitorLoop_error_iff reads branch_name (numPolls timeout interval) 0
  · intro err h
    exact monitorLoop_error_kind reads branch_name
      (numPolls timeout interval) 0 err (by simpa [monitor_deployment] using h)

/-- Witness for C5 at concrete inputs: a run whose polls never report
Available returns `False` after all `ceil(120/5) = 24` polls, and a
run whose second read raises reports an error. -/
theorem monitor_timeout_not_error_and_error_iff_witness :
    (monitor_deployment "b1" "staging" "app" 120 5 none
        (fun _ => Except.ok [⟨"Progressing", "True"⟩])
      = { result := Except.ok false, readsDone := 24, sleeps := 24 })
    ∧ isErrorB (monitor_deployment "b1" "staging" "app" 120 5 none
        (fun k => if k == 0 then Except.ok [⟨"Progressing", "True"⟩]
                  else Except.error "connection refused")).result = true :=
  ⟨(monitor_timeout_not_error_and_error_iff "b1" "staging" "app" 120 5
      (fun _ => Except.ok [⟨"Progressing", "True"⟩])).1
      (fun k _ => by decide),
    (monitor_timeout_not_error_and_error_iff "b1" "staging" "app" 120 5
      (fun k => if k == 0 then Except.ok [⟨"Progressing", "True"⟩]
                else Except.error "connection refused")).2.1.mpr
      ⟨1, by decide, by decide, by decide⟩⟩

/-- C9: `rollback_branch` removes the manifest artifact only after the
cluster deletion is confirmed — if the delete call fails it raises
`RollbackException` and leaves the filesystem (hence the manifest
file) exactly as it was; the manifest file's entry changes only when
the delete succeeded; and on the confirmed path (delete succeeds, file
present) the call returns ok with the manifest file removed. -/
theorem rollback_removes_manifest_only_after_delete
    (deployment_file : Path)
    (branch_name environment deployment_name : String)
    (api : K8sApi) (fs : FileSys) :
    (∀ e, api.deleteOutcome deployment_name environment = some e →
      (rollback_branch deployment_file branch_name environment
          deployment_name none api fs).1
        = Except.error (AgentError.rollbackException
            ("Failed to rollback the branch " ++ branch_name ++ ": "
              ++ e.text))
      ∧ (rollback_branch deployment_file branch_name environment
          deployment_name none api fs).2 = fs)
    ∧ ((rollback_branch deployment_file branch_name environment
          deployment_name none api fs).2 deployment_file
          ≠ fs deployment_file →
        api.deleteOutcome deployment_name environment = none)
    ∧ (api.deleteOutcome deployment_name environment = none →
        ∀ c, fs deployment_file = some c →
        (rollback_branch deployment_file branch_name environment
            deployment_name none api fs).1 = Except.ok ()
        ∧ (rollback_branch deployment_file branch_name environment
            deployment_name none api fs).2 deployment_file = none) := by
  refine ⟨?_, ?_, ?_⟩
  · intro e he
    simp [rollback_branch, he]
  · intro hch
    cases hd : api.deleteOutcome deployment_name environment with
    | none => rfl
    | some e => exact absurd (by simp [rollback_branch, hd]) hch
  · intro hd c hc
    constructor
    · simp [rollback_branch, hd, hc]
    · simp [rollback_branch, hd, hc]

/-- Witness for C9 at concrete inputs: with the manifest file on disk
and a failing cluster delete, the call raises `RollbackException` and
the manifest file is still there unchanged; with a succeeding delete
it returns ok and the file is gone. -/
theorem rollback_removes_manifest_only_after_delete_witness :
    ((rollback_branch ["PROJECT_ROOT", "deployments-b1-staging.yaml"]
        "b1" "staging" "app" none
        { createOutcome := fun _ _ => none,
          replaceOutcome := fun _ _ _ => none,
          deleteOutcome := fun _ _ => some (PyErr.exc "api down") }
        (fun q => if q = ["PROJECT_ROOT", "deployments-b1-staging.yaml"]
                  then some "doc" else none)).1
      = Except.error (AgentError.rollbackException
          "Failed to rollback the branch b1: api down")
    ∧ (rollback_branch ["PROJECT_ROOT", "deployments-b1-staging.yaml"]
        "b1" "staging" "app" none
        { createOutcome := fun _ _ => none,
          replaceOutcome := fun _ _ _ => none,
          deleteOutcome := fun _ _ => some (PyErr.exc "api down") }
        (fun q => if q = ["PROJECT_ROOT", "deployments-b1-staging.yaml"]
                  then some "doc" else none)).2
        ["PROJECT_ROOT", "deployments-b1-staging.yaml"] = some "doc")
    ∧ (rollback_branch ["PROJECT_ROOT", "deployments-b1-staging.yaml"]
        "b1" "staging" "app" none
        { createOutcome := fun _ _ => none,
          replaceOutcome := fun _ _ _ => none,
          deleteOutcome := fun _ _ => none }
        (fun q => if q = ["PROJECT_ROOT", "deployments-b1-staging.yaml"]
                  then some "doc" else none)).2
        ["PROJECT_ROOT", "deployments-b1-staging.yaml"] = none := by
  refine ⟨⟨?_, ?_⟩, ?_⟩
  · exact ((rollback_removes_manifest_only_after_delete
      ["PROJECT_ROOT", "deployments-b1-staging.yaml"] "b1" "staging" "app"
      { createOutcome := fun _ _ => none,
        replaceOutcome := fun _ _ _ => none,
        deleteOutcome := fun _ _ => some (PyErr.exc "api down") }
      (fun q => if q = ["PROJECT_ROOT", "deployments-b1-staging.yaml"]
                then some "doc" else none)).1 (PyErr.exc "api down") rfl).1
  · have h := ((rollback_removes_manifest_only_after_delete
      ["PROJECT_ROOT", "deployments-b1-staging.yaml"] "b1" "staging" "app"
      { createOutcome := fun _ _ => none,
        replaceOutcome := fun _ _ _ => none,
        deleteOutcome := fun _ _ => some (PyErr.exc "api down") }
      (fun q => if q = ["PROJECT_ROOT", "deployments-b1-staging.yaml"]
                then some "doc" else none)).1 (PyErr.exc "api down") rfl).2
    calc _ = _ := congrFun h ["PROJECT_ROOT", "deployments-b1-staging.yaml"]
    _ = some "doc" := by decide
  · exact ((rollback_removes_manifest_only_after_delete
      ["PROJECT_ROOT", "deployments-b1-staging.yaml"] "b1" "staging" "app"
      { createOutcome := fun _ _ => none,
        replaceOutcome := fun _ _ _ => none,
        deleteOutcome := fun _ _ => none }
      (fun q => if q = ["PROJECT_ROOT", "deployments-b1-staging.yaml"]
                then some "doc" else none)).2.2 rfl "doc" (by decide)).2

/-- C2: the spec-modelled RemediationEngine enforces the 3-attempt
cap: starting from a fresh counter for a deployment identity, after
three attempts whose outcomes were not `Fixed`, the fourth call to
`attempt` returns `Exhausted` carrying the failure summary and
executes zero procedure steps, whatever the fourth procedure's
content. -/
theorem remediation_cap_exhausts_fourth_attempt (identity : String)
    (p1 p2 p3 p4 : List String) (s1 s2 s3 s4 : String)
    (r1 r2 r3 r4 : Bool) (st0 : RemediationState)
    (h0 : st0.attemptsOf identity = 0)
    (h1 : (RemediationEngine.attempt identity p1 s1 r1 st0).outcome
        ≠ RemediationOutcome.Fixed)
    (h2 : (RemediationEngine.attempt identity p2 s2 r2
        (RemediationEngine.attempt identity p1 s1 r1 st0).state).outcome
        ≠ RemediationOutcome.Fixed)
    (h3 : (RemediationEngine.attempt identity p3 s3 r3
        (RemediationEngine.attempt identity p2 s2 r2
          (RemediationEngine.attempt identity p1 s1 r1 st0).state).state).outcome
        ≠ RemediationOutcome.Fixed) :
    (RemediationEngine.attempt identity p4 s4 r4
      (RemediationEngine.attempt identity p3 s3 r3
        (RemediationEngine.attempt identity p2 s2 r2
          (RemediationEngine.attempt identity p1 s1 r1 st0).state).state).state).outcome
      = RemediationOutcome.Exhausted s4
    ∧ (RemediationEngine.attempt identity p4 s4 r4
        (RemediationEngine.attempt identity p3 s3 r3
          (RemediationEngine.attempt identity p2 s2 r2
            (RemediationEngine.attempt identity p1 s1 r1 st0).state).state).state).stepsExecuted
      = 0 := by
  constructor <;> simp [RemediationEngine.attempt, h0]

/-- Witness for C2 at concrete inputs: a fresh engine for identity
"b1@staging" whose three remediation runs all still fail; the fourth
call returns `Exhausted "image pull backoff"` and runs no step of its
two-step procedure. -/
theorem remediation_cap_exhausts_fourth_attempt_witness :
    (RemediationEngine.attempt "b1@staging" ["redeploy", "monitor"]
      "image pull backoff" false
      (RemediationEngine.attempt "b1@staging" ["redeploy", "monitor"] "s3"
        false
        (RemediationEngine.attempt "b1@staging" ["redeploy", "monitor"] "s2"
          false
          (RemediationEngine.attempt "b1@staging" ["redeploy", "monitor"]
            "s1" false ⟨fun _ => 0⟩).state).state).state).outcome
      = RemediationOutcome.Exhausted "image pull backoff"
    ∧ (RemediationEngine.attempt "b1@staging" ["redeploy", "monitor"]
      "image pull backoff" false
      (RemediationEngine.attempt "b1@staging" ["redeploy", "monitor"] "s3"
        false
        (RemediationEngine.attempt "b1@staging" ["redeploy", "monitor"] "s2"
          false
          (RemediationEngine.attempt "b1@staging" ["redeploy", "monitor"]
            "s1" false ⟨fun _ => 0⟩).state).state).state).stepsExecuted
      = 0 :=
  remediation_cap_exhausts_fourth_attempt "b1@staging"
    ["redeploy", "monitor"] ["redeploy", "monitor"] ["redeploy", "monitor"]
    ["redeploy", "monitor"] "s1" "s2" "s3" "image pull backoff"
    false false false false ⟨fun _ => 0⟩ rfl (by decide) (by decide)
    (by decide)

/-- Witness for C10 at a concrete input: clone of a URL git names
"devops-agent" succeeds, yet the returned path is the
"agenticaitraining" subdirectory, which is then not on disk. -/
theorem clone_returns_fixed_subdir_witness :
    (clone_repository_to_temp_dir "https://github.com/x/devops-agent.git"
        { tempDir := ["tmp", "t1"], cloneExitZero := true,
          gitDirName := fun _ => "devops-agent" }).returnedPath
        = ["tmp", "t1"] ++ ["agenticaitraining"]
    ∧ ¬ ((clone_repository_to_temp_dir "https://github.com/x/devops-agent.git"
        { tempDir := ["tmp", "t1"], cloneExitZero := true,
          gitDirName := fun _ => "devops-agent" }).returnedPath
        ∈ (clone_repository_to_temp_dir "https://github.com/x/devops-agent.git"
        { tempDir := ["tmp", "t1"], cloneExitZero := true,
          gitDirName := fun _ => "devops-agent" }).dirsOnDisk) := by
  refine ⟨(clone_returns_fixed_subdir _ "u" _).1, ?_⟩
  intro hmem
  have h := ((clone_returns_fixed_subdir
      "https://github.com/x/devops-agent.git" "u"
      { tempDir := ["tmp", "t1"], cloneExitZero := true,
        gitDirName := fun _ => "devops-agent" }).2.2 rfl).mp hmem
  simp at h

end DevopsAgent
